import Mathlib

/-!
Verification of the junkhub backend's order, authentication and
notification logic against its specification.

The JavaScript route handlers and middleware are shallowly embedded as
pure Lean functions over an explicit database state `DB`.  Each handler
returns the HTTP response it would send together with the database state
it leaves behind; Prisma queries become list lookups and list updates.
-/

namespace Junkhub

/-- Product row: `id`, `shopId`, `price`, `stock`, `name` and the
moderation `status` field.  Stock is an `Int` because the decrement
writes can drive it below zero. -/
structure Product where
  id : Nat
  shopId : Nat
  price : Int
  stock : Int
  name : String
  status : String
deriving Repr, DecidableEq

/-- Shop row: `id` and the owning `ownerId`. -/
structure Shop where
  id : Nat
  ownerId : Nat
deriving Repr, DecidableEq

/-- User row; `wishlist` is the stored ordered collection of product ids. -/
structure User where
  id : Nat
  email : String
  wishlist : List Nat
deriving Repr, DecidableEq

/-- Owner row with the `approved` flag gating dashboard access. -/
structure Owner where
  id : Nat
  email : String
  approved : Bool
deriving Repr, DecidableEq

/-- Admin row. -/
structure Admin where
  id : Nat
  email : String
deriving Repr, DecidableEq

/-- Order item row: product id, quantity and the price snapshot taken at
order time. -/
structure OrderItem where
  productId : Nat
  quantity : Int
  price : Int
deriving Repr, DecidableEq

/-- Order row.  `receiptNumber` is `none` until the user confirms the
delivered order. -/
structure Order where
  id : Nat
  userId : Nat
  total : Int
  status : String
  receiptNumber : Option String
  shippingAddress : String
  shippingCity : String
  shippingZip : String
  items : List OrderItem
deriving Repr, DecidableEq

/-- Notification row, addressed to exactly one of user / owner / admin. -/
structure Notification where
  userId : Option Nat
  ownerId : Option Nat
  adminId : Option Nat
  type : String
  title : String
  message : String
  link : String
  isRead : Bool
deriving Repr, DecidableEq

/-- The relational store.  `nextOrderId` models Prisma's id generation
for newly created orders. -/
structure DB where
  users : List User
  owners : List Owner
  admins : List Admin
  shops : List Shop
  products : List Product
  orders : List Order
  notifications : List Notification
  nextOrderId : Nat
deriving Repr, DecidableEq

/-- HTTP response abstraction: status code, the `error` message body
field, the machine-readable `code` field, and the `receiptNumber` field
that the confirm endpoint returns on success and on the
already-confirmed error. -/
structure Response where
  status : Nat
  error : Option String
  code : Option String
  receiptNumber : Option String
deriving Repr, DecidableEq

/-- Success response with empty auxiliary fields. -/
def okResp (s : Nat) : Response := ⟨s, none, none, none⟩

/-- Error response carrying only a message. -/
def errResp (s : Nat) (msg : String) : Response := ⟨s, some msg, none, none⟩

/-- Response of `authenticate` middlewares when no token was extracted. -/
def authRequiredResp : Response := errResp 401 "Authentication required"

/-- Response when `verifyToken` throws (invalid or expired token). -/
def invalidTokenResp : Response := errResp 401 "Invalid or expired token"

/-- Response of `authenticateUser` on a non-user role. -/
def userAccessResp : Response := errResp 403 "User access required"

/-- Response of `authenticateOwner` on a non-owner role. -/
def ownerAccessResp : Response := errResp 403 "Owner access required"

/-- Response of `authenticateAdmin` on a non-admin role. -/
def adminAccessResp : Response := errResp 403 "Admin access required"

/-- Response when the account behind a decoded token no longer exists. -/
def staleUserResp : Response := errResp 401 "User not found"

/-- Response when the owner account behind a decoded token is missing. -/
def staleOwnerResp : Response := errResp 401 "Owner not found"

/-- Response when the admin account behind a decoded token is missing. -/
def staleAdminResp : Response := errResp 401 "Admin not found"

/-- The 403 `PENDING_APPROVAL` response of `authenticateOwner`. -/
def pendingApprovalResp : Response :=
  ⟨403, some "Your account is pending approval.", some "PENDING_APPROVAL", none⟩

/-- Generic 500 produced by the central error handler for an unrecognized
thrown error. -/
def serverErrorResp : Response := errResp 500 "Internal server error"

/-- The 404 the central error handler produces for Prisma's P2025. -/
def recordNotFoundResp : Response := errResp 404 "Record not found"

/-- Response of the `validate` middleware on a failed validation chain. -/
def validationFailedResp : Response := errResp 400 "Validation failed"

/-- Decoded JWT payload. -/
structure Decoded where
  id : Nat
  email : String
  role : String
deriving Repr, DecidableEq

/-- Incoming request's credential transport: the `token` cookie and the
`Authorization` header. -/
structure Request where
  cookieToken : Option String
  authHeader : Option String
deriving Repr, DecidableEq

/-- Embedding of `extractToken`: the cookie takes precedence when truthy,
otherwise a `Bearer `-prefixed Authorization header supplies the token.
JS truthiness makes an empty cookie string fall through to the header. -/
def extractToken (req : Request) : Option String :=
  match req.cookieToken with
  | some t =>
      if t ≠ "" then some t
      else
        match req.authHeader with
        | some h => if h.startsWith "Bearer " then some (h.drop 7) else none
        | none => none
  | none =>
      match req.authHeader with
      | some h => if h.startsWith "Bearer " then some (h.drop 7) else none
      | none => none

/-- Token verification oracle: `none` models `verifyToken` throwing. -/
def Verifier := String → Option Decoded

/-- Embedding of the `authenticate` middleware: extract, verify, and hand
the decoded payload to the route.  The `if t = ""` branch mirrors the JS
falsy check `if (!token)` on the extracted token. -/
def authenticate (verify : Verifier) (req : Request) : Except Response Decoded :=
  match extractToken req with
  | none => .error authRequiredResp
  | some t =>
      if t = "" then .error authRequiredResp
      else
        match verify t with
        | none => .error invalidTokenResp
        | some d => .ok d

/-- Embedding of `authenticateUser`: extract and verify the token,
require role `user`, and load the user row. -/
def authenticateUser (verify : Verifier) (db : DB) (req : Request) :
    Except Response User :=
  match extractToken req with
  | none => .error authRequiredResp
  | some t =>
      if t = "" then .error authRequiredResp
      else
        match verify t with
        | none => .error invalidTokenResp
        | some d =>
            if d.role ≠ "user" then .error userAccessResp
            else
              match db.users.find? (fun u => u.id = d.id) with
              | none => .error staleUserResp
              | some u => .ok u

/-- Embedding of `authenticateOwner`: extract and verify the token,
require role `owner`, load the owner row, and reject unapproved owners
with the 403 `PENDING_APPROVAL` response. -/
def authenticateOwner (verify : Verifier) (db : DB) (req : Request) :
    Except Response Owner :=
  match extractToken req with
  | none => .error authRequiredResp
  | some t =>
      if t = "" then .error authRequiredResp
      else
        match verify t with
        | none => .error invalidTokenResp
        | some d =>
            if d.role ≠ "owner" then .error ownerAccessResp
            else
              match db.owners.find? (fun o => o.id = d.id) with
              | none => .error staleOwnerResp
              | some o =>
                  if o.approved = false then .error pendingApprovalResp
                  else .ok o

/-- Embedding of `authenticateAdmin`. -/
def authenticateAdmin (verify : Verifier) (db : DB) (req : Request) :
    Except Response Admin :=
  match extractToken req with
  | none => .error authRequiredResp
  | some t =>
      if t = "" then .error authRequiredResp
      else
        match verify t with
        | none => .error invalidTokenResp
        | some d =>
            if d.role ≠ "admin" then .error adminAccessResp
            else
              match db.admins.find? (fun a => a.id = d.id) with
              | none => .error staleAdminResp
              | some a => .ok a

/-- Running a protected route: a failing middleware short-circuits with
its response and leaves the store untouched; otherwise the handler runs
with the authenticated account. -/
def runProtected {α : Type} (mw : Except Response α)
    (handler : α → DB → Response × DB) (db : DB) : Response × DB :=
  match mw with
  | .error r => (r, db)
  | .ok u => handler u db

/-- Incoming order line item: `productId` plus `quantity`, as validated
by the POST /api/orders validation chain. -/
structure ReqItem where
  productId : Nat
  quantity : Int
deriving Repr, DecidableEq

/-- Modelled from the spec: the Prisma schema file is not under src/, so
the default `status` it assigns to a newly created order is taken from
the spec's Order lifecycle, which begins at `pending`. -/
def defaultOrderStatus : String := "pending"

/-- JS `Set` insertion: append the element unless already present. -/
def insertIfAbsent (l : List Nat) (x : Nat) : List Nat :=
  if x ∈ l then l else l ++ [x]

/-- Deduplication in first-occurrence order, as a JS `Set` built by
iterated insertion and then iterated in insertion order. -/
def dedupKeepFirst (l : List Nat) : List Nat :=
  l.foldl insertIfAbsent []

/-- Owner fan-out list of an order's items: for each item resolve the
product's shop and take its owner, skipping items whose optional chain
`item.product?.shopId` / `shop?.ownerId` comes up empty. -/
def ownersOfItems (db : DB) (l : List OrderItem) : List Nat :=
  l.filterMap (fun oi =>
    (db.products.find? (fun p => p.id = oi.productId)).bind (fun p =>
      (db.shops.find? (fun s => s.id = p.shopId)).map (fun s => s.ownerId)))

/-- Notification written by `notifyOrderCreated` via `notifyOwner`. -/
def orderCreatedNotification (ownerId : Nat) (ord : Order) : Notification :=
  { userId := none, ownerId := some ownerId, adminId := none
    type := "order", title := "New Order Received"
    message := "New order #" ++ toString ord.id ++ " received for " ++ toString ord.total
    link := "/dashboard/orders", isRead := false }

/-- Status-specific message table of `notifyOrderStatusChanged`, with its
fallback for statuses outside the table. -/
def statusMessage (s : String) : String :=
  if s = "processing" then "Your order is now being processed"
  else if s = "shipped" then "Your order has been shipped"
  else if s = "delivered" then "Your order has been delivered"
  else if s = "cancelled" then "Your order has been cancelled"
  else "Your order status changed to " ++ s

/-- Notification written by `notifyOrderStatusChanged` via `notifyUser`,
addressed to the order's user. -/
def statusChangedNotification (userId : Nat) (s : String) : Notification :=
  { userId := some userId, ownerId := none, adminId := none
    type := "order", title := "Order " ++ s.capitalize
    message := statusMessage s, link := "/profile/orders", isRead := false }

/-- Notification written directly by the confirm handler for each
distinct shop owner of the order's items. -/
def orderCompletedNotification (ownerId : Nat) (ord : Order) (receipt : String) :
    Notification :=
  { userId := none, ownerId := some ownerId, adminId := none
    type := "order", title := "Order Completed"
    message := "Order #" ++ toString ord.id ++
      " has been confirmed by the customer. Receipt: " ++ receipt
    link := "/orders", isRead := false }

/-- Notification written directly by the admin product-approval handler. -/
def productApprovedNotification (ownerId : Nat) (productName : String) :
    Notification :=
  { userId := none, ownerId := some ownerId, adminId := none
    type := "approval", title := "Product Approved"
    message := "Your product \"" ++ productName ++
      "\" has been approved and is now visible to customers."
    link := "/products", isRead := false }

/-- First phase of POST /api/orders: walk the requested items in order,
load each product, fail on a missing product or on
`product.stock < item.quantity`, and accumulate the running total and
the order-item rows with the price snapshot. -/
def buildOrderItems (db : DB) (total : Int) (acc : List OrderItem) :
    List ReqItem → Except Response (Int × List OrderItem)
  | [] => .ok (total, acc)
  | it :: rest =>
      match db.products.find? (fun p => p.id = it.productId) with
      | none => .error (errResp 404 ("Product " ++ toString it.productId ++ " not found"))
      | some p =>
          if p.stock < it.quantity then
            .error (errResp 400 ("Insufficient stock for " ++ p.name))
          else
            buildOrderItems db (total + p.price * it.quantity)
              (acc ++ [⟨p.id, it.quantity, p.price⟩]) rest

/-- One `prisma.product.update` stock decrement: every product row with
the item's id has its stock lowered by the requested quantity. -/
def applyDecrement (db : DB) (it : ReqItem) : DB :=
  { db with products := db.products.map (fun p =>
      if p.id = it.productId then { p with stock := p.stock - it.quantity } else p) }

/-- Second phase of POST /api/orders: the per-item stock decrement loop.
A missing product makes the update throw Prisma's P2025, which the
central error handler turns into the 404 record-not-found response;
decrements already performed stay in place. -/
def decrementStocks : DB → List ReqItem → Option Response × DB
  | db, [] => (none, db)
  | db, it :: rest =>
      match db.products.find? (fun p => p.id = it.productId) with
      | none => (some recordNotFoundResp, db)
      | some _ => decrementStocks (applyDecrement db it) rest

/-- Embedding of the POST /api/orders handler body (after the validation
chain): build the items and total with an all-or-nothing check, create
the order, run the stock decrement loop, then notify each distinct shop
owner once.  `notifFail` models every `prisma.notification.create` in
this request throwing; `notifyOwner` swallows such failures. -/
def createOrderHandler (notifFail : Bool) (uid : Nat) (items : List ReqItem)
    (addr city zip : String) (db : DB) : Response × DB :=
  match buildOrderItems db 0 [] items with
  | .error r => (r, db)
  | .ok (total, orderItems) =>
      let ord : Order :=
        { id := db.nextOrderId, userId := uid, total := total
          status := defaultOrderStatus, receiptNumber := none
          shippingAddress := addr, shippingCity := city, shippingZip := zip
          items := orderItems }
      let db1 : DB :=
        { db with orders := db.orders ++ [ord], nextOrderId := db.nextOrderId + 1 }
      match decrementStocks db1 items with
      | (some r, db2) => (r, db2)
      | (none, db2) =>
          let ownerIds := dedupKeepFirst (ownersOfItems db1 ord.items)
          let db3 :=
            if notifFail then db2
            else ownerIds.foldl (fun d ow =>
              { d with notifications :=
                  d.notifications ++ [orderCreatedNotification ow ord] }) db2
          (okResp 201, db3)

/-- Embedding of PUT /api/orders/:id/cancel: only the owning user may
cancel, and only from status `pending`. -/
def cancelOrderHandler (uid oid : Nat) (db : DB) : Response × DB :=
  match db.orders.find? (fun o => o.id = oid) with
  | none => (errResp 404 "Order not found", db)
  | some ord =>
      if ord.userId ≠ uid then (errResp 403 "Access denied", db)
      else if ord.status ≠ "pending" then
        (errResp 400 "Only pending orders can be cancelled", db)
      else
        (okResp 200,
          { db with orders := db.orders.map (fun o =>
              if o.id = oid then { o with status := "cancelled" } else o) })

/-- Ownership scan of PUT /api/orders/:id/status: `order.items.some`
checking `item.product.shop.ownerId === req.user.id`.  A dangling
product or shop reference makes the JS property access throw, which the
central error handler turns into a generic 500. -/
def ownsSomeItem (db : DB) (uid : Nat) : List OrderItem → Except Response Bool
  | [] => .ok false
  | oi :: rest =>
      match db.products.find? (fun p => p.id = oi.productId) with
      | none => .error serverErrorResp
      | some p =>
          match db.shops.find? (fun s => s.id = p.shopId) with
          | none => .error serverErrorResp
          | some s =>
              if s.ownerId = uid then .ok true else ownsSomeItem db uid rest

/-- Status values accepted by the PUT /api/orders/:id/status validation
chain (`completed` is deliberately absent). -/
def orderStatusWhitelist : List String :=
  ["pending", "processing", "shipped", "delivered", "cancelled"]

/-- Embedding of the PUT /api/orders/:id/status handler body: find the
order, require the requester to own the shop of at least one item, set
the new status with no constraint on the prior status, and notify the
order's user (`notifyUser` swallows a failing notification write). -/
def updateOrderStatus (notifFail : Bool) (uid oid : Nat) (newStatus : String)
    (db : DB) : Response × DB :=
  match db.orders.find? (fun o => o.id = oid) with
  | none => (errResp 404 "Order not found", db)
  | some ord =>
      match ownsSomeItem db uid ord.items with
      | .error r => (r, db)
      | .ok false => (errResp 403 "Access denied", db)
      | .ok true =>
          let db1 : DB :=
            { db with orders := db.orders.map (fun o =>
                if o.id = oid then { o with status := newStatus } else o) }
          let db2 :=
            if notifFail then db1
            else { db1 with notifications :=
                db1.notifications ++ [statusChangedNotification ord.userId newStatus] }
          (okResp 200, db2)

/-- PUT /api/orders/:id/status including its validation chain, which
rejects any status outside the whitelist before the handler runs. -/
def updateOrderStatusValidated (notifFail : Bool) (uid oid : Nat)
    (newStatus : String) (db : DB) : Response × DB :=
  if newStatus ∈ orderStatusWhitelist then
    updateOrderStatus notifFail uid oid newStatus db
  else (validationFailedResp, db)

/-- Embedding of the PUT /api/orders/:id/confirm handler: only the owning
user, only from status `delivered`, and only when no receipt exists yet;
on success the receipt `RCP-<date>-<random>` is stored together with
status `completed`, then each distinct shop owner is notified by a direct
`prisma.notification.create` whose failure is NOT swallowed: with
`notifFail` and a non-empty owner set the thrown error reaches the
central error handler after the order update already persisted. -/
def confirmOrderHandler (notifFail : Bool) (uid oid : Nat)
    (dateStr randomPart : String) (db : DB) : Response × DB :=
  match db.orders.find? (fun o => o.id = oid) with
  | none => (errResp 404 "Order not found", db)
  | some ord =>
      if ord.userId ≠ uid then (errResp 403 "Access denied", db)
      else if ord.status ≠ "delivered" then
        (errResp 400 "Can only confirm delivered orders", db)
      else
        match ord.receiptNumber with
        | some r =>
            (⟨400, some "Order has already been confirmed", none, some r⟩, db)
        | none =>
            let receipt := "RCP-" ++ dateStr ++ "-" ++ randomPart
            let db1 : DB :=
              { db with orders := db.orders.map (fun o =>
                  if o.id = oid then
                    { o with receiptNumber := some receipt, status := "completed" }
                  else o) }
            let ownerIds := dedupKeepFirst (ownersOfItems db ord.items)
            if notifFail then
              if ownerIds = [] then
                (⟨200, none, none, some receipt⟩, db1)
              else (serverErrorResp, db1)
            else
              (⟨200, none, none, some receipt⟩,
                ownerIds.foldl (fun d ow =>
                  { d with notifications :=
                      d.notifications ++ [orderCompletedNotification ow ord receipt] }) db1)

/-- Embedding of PUT /api/admin/products/:id/approve: set the product's
moderation status to `approved` (a missing product makes the update
throw P2025 → 404), then notify the shop owner with a direct
`prisma.notification.create` whose failure is not swallowed. -/
def approveProductHandler (notifFail : Bool) (pid : Nat) (db : DB) :
    Response × DB :=
  match db.products.find? (fun p => p.id = pid) with
  | none => (recordNotFoundResp, db)
  | some p =>
      let db1 : DB :=
        { db with products := db.products.map (fun q =>
            if q.id = pid then { q with status := "approved" } else q) }
      match db.shops.find? (fun s => s.id = p.shopId) with
      | none => (serverErrorResp, db1)
      | some s =>
          if notifFail then (serverErrorResp, db1)
          else
            (okResp 200,
              { db1 with notifications :=
                  db1.notifications ++ [productApprovedNotification s.ownerId p.name] })

/-- Embedding of the wishlist toggle of PUT /api/users/wishlist: remove
the product id when present, append it otherwise. -/
def toggleWishlist (wishlist : List Nat) (productId : Nat) : List Nat :=
  if productId ∈ wishlist then wishlist.filter (fun i => i ≠ productId)
  else wishlist ++ [productId]

/-- Price of a product by id, defaulting to 0 when absent (statement-side
helper; the claims' hypotheses guarantee presence). -/
def priceOf (db : DB) (pid : Nat) : Int :=
  ((db.products.find? (fun p => p.id = pid)).map Product.price).getD 0

/-- Stock of a product by id, defaulting to 0 when absent. -/
def stockOf (db : DB) (pid : Nat) : Int :=
  ((db.products.find? (fun p => p.id = pid)).map Product.stock).getD 0

/-- Decidable per-item precondition of C1: the product exists and has
sufficient stock. -/
def sufficientStock (db : DB) (it : ReqItem) : Bool :=
  match db.products.find? (fun p => p.id = it.productId) with
  | none => false
  | some p => it.quantity ≤ p.stock

/-- Order record created by a successful POST /api/orders. -/
def createdOrder (uid : Nat) (addr city zip : String) (db : DB)
    (total : Int) (oItems : List OrderItem) : Order :=
  { id := db.nextOrderId, userId := uid, total := total,
    status := defaultOrderStatus, receiptNumber := none,
    shippingAddress := addr, shippingCity := city, shippingZip := zip,
    items := oItems }

/-- Database state left behind by a successful POST /api/orders. -/
def createOrderSuccessDB (nf : Bool) (uid : Nat) (items : List ReqItem)
    (addr city zip : String) (db : DB) (total : Int) (oItems : List OrderItem) : DB :=
  let ord := createdOrder uid addr city zip db total oItems
  let db1 : DB := { db with orders := db.orders ++ [ord],
                            nextOrderId := db.nextOrderId + 1 }
  let db2 := items.foldl applyDecrement db1
  { db2 with notifications := db2.notifications ++
      (if nf then [] else
        (dedupKeepFirst (ownersOfItems db1 oItems)).map
          (fun ow => orderCreatedNotification ow ord)) }

/-- The PUT /api/orders/:id/status express chain: `authenticateOwner`,
then the status-whitelist validation, then the handler. -/
def updateOrderStatusRoute (verify : Verifier) (req : Request) (notifFail : Bool)
    (oid : Nat) (newStatus : String) (db : DB) : Response × DB :=
  runProtected (authenticateOwner verify db req)
    (fun o d => updateOrderStatusValidated notifFail o.id oid newStatus d) db

/-- One request through one of the four order endpoints, as a relation
between the store before and after. -/
inductive OrderStep : DB → DB → Prop where
  | create (nf : Bool) (uid : Nat) (items : List ReqItem) (addr city zip : String)
      (db : DB) : OrderStep db (createOrderHandler nf uid items addr city zip db).2
  | cancel (uid oid : Nat) (db : DB) :
      OrderStep db (cancelOrderHandler uid oid db).2
  | status (nf : Bool) (uid oid : Nat) (s : String) (db : DB) :
      OrderStep db (updateOrderStatusValidated nf uid oid s db).2
  | confirm (nf : Bool) (uid oid : Nat) (ds rp : String) (db : DB) :
      OrderStep db (confirmOrderHandler nf uid oid ds rp db).2

/-- Stores reachable through the order endpoints from a store with no
orders. -/
inductive ReachableDB : DB → Prop where
  | base (db : DB) : db.orders = [] → ReachableDB db
  | step (db db' : DB) : ReachableDB db → OrderStep db db' → ReachableDB db'

/-- The C9 invariant: every completed order carries a receipt. -/
def completedHasReceipt (db : DB) : Prop :=
  ∀ o ∈ db.orders, o.status = "completed" → o.receiptNumber.isSome = true

/-- Verifier that rejects every token (signature or expiry failure). -/
def verifyNone : Verifier := fun _ => none

/-- Concrete verifier used by the witnesses: one owner token and one user
token. -/
def verifyW : Verifier := fun t =>
  if t = "tokOwner" then some ⟨7, "o@x", "owner"⟩
  else if t = "tokUser" then some ⟨1, "u@x", "user"⟩
  else none

/-- Concrete store used by the witnesses: two approved products of one
shop owned by owner 7, no orders yet. -/
def dbC1W : DB :=
  { users := [⟨1, "u@x", []⟩], owners := [⟨7, "o@x", true⟩], admins := [⟨9, "a@x"⟩],
    shops := [⟨5, 7⟩],
    products := [⟨1, 5, 10, 5, "prodA", "approved"⟩, ⟨2, 5, 5, 4, "prodB", "approved"⟩],
    orders := [], notifications := [], nextOrderId := 1 }

/-- Concrete delivered, unconfirmed order of user 1. -/
def ordC3W : Order :=
  { id := 1, userId := 1, total := 20, status := "delivered",
    receiptNumber := none, shippingAddress := "addr",
    shippingCity := "city", shippingZip := "zip",
    items := [⟨1, 2, 10⟩] }

/-- Concrete store holding `ordC3W` and the shop data behind its item. -/
def dbC3W : DB :=
  { users := [⟨1, "u@x", []⟩], owners := [⟨7, "o@x", true⟩], admins := [⟨9, "a@x"⟩],
    shops := [⟨5, 7⟩],
    products := [⟨1, 5, 10, 5, "prodA", "approved"⟩],
    orders := [ordC3W],
    notifications := [], nextOrderId := 2 }

/-- Concrete store whose single owner is not yet approved. -/
def dbPendingW : DB :=
  { users := [], owners := [⟨7, "o@x", false⟩], admins := [],
    shops := [], products := [], orders := [], notifications := [], nextOrderId := 1 }

/-! Helper lemmas about the embedded operations. -/

theorem sufficientStock_iff (db : DB) (it : ReqItem) :
    sufficientStock db it = true
      ↔ ∃ p, db.products.find? (fun q => q.id = it.productId) = some p
          ∧ it.quantity ≤ p.stock := by
  unfold sufficientStock
  cases h : db.products.find? (fun p => p.id = it.productId) with
  | none => simp
  | some p => simp [h]


theorem mem_insertIfAbsent (l : List Nat) (x y : Nat) :
    y ∈ insertIfAbsent l x ↔ y ∈ l ∨ y = x := by
  unfold insertIfAbsent
  by_cases h : x ∈ l
  · simp only [if_pos h]
    constructor
    · exact Or.inl
    · rintro (hy | rfl)
      · exact hy
      · exact h
  · simp [if_neg h]

theorem nodup_insertIfAbsent (l : List Nat) (x : Nat) (h : l.Nodup) :
    (insertIfAbsent l x).Nodup := by
  unfold insertIfAbsent
  by_cases hx : x ∈ l
  · simpa [if_pos hx]
  · rw [if_neg hx]
    simp [List.nodup_append, h, hx]

theorem mem_foldl_insertIfAbsent (l : List Nat) :
    ∀ (acc : List Nat) (y : Nat),
      y ∈ l.foldl insertIfAbsent acc ↔ y ∈ acc ∨ y ∈ l := by
  induction l with
  | nil => intro acc y; simp
  | cons a t ih =>
      intro acc y
      simp only [List.foldl_cons, ih, mem_insertIfAbsent, List.mem_cons]
      tauto

theorem nodup_foldl_insertIfAbsent (l : List Nat) :
    ∀ acc : List Nat, acc.Nodup → (l.foldl insertIfAbsent acc).Nodup := by
  induction l with
  | nil => intro acc h; simpa
  | cons a t ih =>
      intro acc h
      exact ih _ (nodup_insertIfAbsent acc a h)

theorem dedupKeepFirst_nodup (l : List Nat) : (dedupKeepFirst l).Nodup :=
  nodup_foldl_insertIfAbsent l [] List.nodup_nil

theorem mem_dedupKeepFirst (l : List Nat) (y : Nat) :
    y ∈ dedupKeepFirst l ↔ y ∈ l := by
  unfold dedupKeepFirst
  rw [mem_foldl_insertIfAbsent]
  simp

theorem find?_map_id_preserving {α : Type} (f : α → α) (p : α → Bool)
    (hf : ∀ a, p (f a) = p a) (l : List α) :
    (l.map f).find? p = (l.find? p).map f := by
  induction l with
  | nil => rfl
  | cons a t ih =>
      by_cases hpa : p a = true
      · rw [List.map_cons, List.find?_cons_of_pos _ (by rw [hf a]; exact hpa),
          List.find?_cons_of_pos _ hpa]
        rfl
      · rw [List.map_cons,
          List.find?_cons_of_neg _ (by rw [hf a]; simpa using hpa),
          List.find?_cons_of_neg _ (by simpa using hpa)]
        exact ih

theorem applyDecrement_find? (db : DB) (j : ReqItem) (x : Nat) :
    (applyDecrement db j).products.find? (fun p => p.id = x)
      = (db.products.find? (fun p => p.id = x)).map
          (fun p => if p.id = j.productId then { p with stock := p.stock - j.quantity } else p) := by
  unfold applyDecrement
  apply find?_map_id_preserving
  intro a
  by_cases h : a.id = j.productId <;> simp [h]

theorem applyDecrement_isSome (db : DB) (j : ReqItem) (x : Nat) :
    ((applyDecrement db j).products.find? (fun p => p.id = x)).isSome
      = ((db.products.find? (fun p => p.id = x)).isSome) := by
  rw [applyDecrement_find?]
  cases db.products.find? (fun p => p.id = x) <;> rfl

theorem stockOf_applyDecrement (db : DB) (j : ReqItem) (x : Nat)
    (h : (db.products.find? (fun p => p.id = x)).isSome) :
    stockOf (applyDecrement db j) x
      = if x = j.productId then stockOf db x - j.quantity else stockOf db x := by
  obtain ⟨p, hp⟩ := Option.isSome_iff_exists.mp h
  have hpid : p.id = x := by simpa using List.find?_some hp
  unfold stockOf
  rw [applyDecrement_find?, hp]
  by_cases hx : x = j.productId
  · subst hx
    simp [hpid]
  · have : ¬ p.id = j.productId := by rw [hpid]; exact hx
    simp [this, hx]

theorem stockOf_foldl_applyDecrement (items : List ReqItem) :
    ∀ (db : DB) (x : Nat),
      (db.products.find? (fun p => p.id = x)).isSome →
      stockOf (items.foldl applyDecrement db) x
        = stockOf db x
          - ((items.filter (fun it => it.productId = x)).map ReqItem.quantity).sum := by
  induction items with
  | nil => intro db x _; simp
  | cons j t ih =>
      intro db x h
      have h' : ((applyDecrement db j).products.find? (fun p => p.id = x)).isSome := by
        rw [applyDecrement_isSome]; exact h
      rw [List.foldl_cons, ih (applyDecrement db j) x h',
        stockOf_applyDecrement db j x h]
      by_cases hx : j.productId = x
      · rw [if_pos hx.symm]
        simp only [List.filter_cons, hx, decide_True, if_true, List.map_cons,
          List.sum_cons]
        ring
      · rw [if_neg (fun hcc => hx hcc.symm)]
        simp [List.filter_cons, hx]

theorem foldl_applyDecrement_orders (items : List ReqItem) :
    ∀ db : DB, (items.foldl applyDecrement db).orders = db.orders := by
  induction items with
  | nil => intro db; rfl
  | cons j t ih => intro db; simpa using ih (applyDecrement db j)

theorem foldl_applyDecrement_notifications (items : List ReqItem) :
    ∀ db : DB, (items.foldl applyDecrement db).notifications = db.notifications := by
  induction items with
  | nil => intro db; rfl
  | cons j t ih => intro db; simpa using ih (applyDecrement db j)

theorem foldl_applyDecrement_shops (items : List ReqItem) :
    ∀ db : DB, (items.foldl applyDecrement db).shops = db.shops := by
  induction items with
  | nil => intro db; rfl
  | cons j t ih => intro db; simpa using ih (applyDecrement db j)

theorem decrementStocks_ok (items : List ReqItem) :
    ∀ db : DB,
      (∀ it ∈ items, ((db.products.find? (fun p => p.id = it.productId)).isSome)) →
      decrementStocks db items = (none, items.foldl applyDecrement db) := by
  induction items with
  | nil => intro db _; rfl
  | cons j t ih =>
      intro db h
      have hj := h j (List.mem_cons_self j t)
      obtain ⟨p, hp⟩ := Option.isSome_iff_exists.mp hj
      unfold decrementStocks
      rw [hp]
      simp only [List.foldl_cons]
      apply ih
      intro it hit
      rw [applyDecrement_isSome]
      exact h it (List.mem_cons_of_mem j hit)

theorem buildOrderItems_cons_found (db : DB) (total : Int) (acc : List OrderItem)
    (it : ReqItem) (rest : List ReqItem) (p : Product)
    (hp : db.products.find? (fun q => q.id = it.productId) = some p) :
    buildOrderItems db total acc (it :: rest)
      = if p.stock < it.quantity then
          .error (errResp 400 ("Insufficient stock for " ++ p.name))
        else buildOrderItems db (total + p.price * it.quantity)
          (acc ++ [⟨p.id, it.quantity, p.price⟩]) rest := by
  conv_lhs => rw [buildOrderItems]
  rw [hp]

theorem buildOrderItems_ok (db : DB) :
    ∀ (items : List ReqItem) (total : Int) (acc : List OrderItem),
      (∀ it ∈ items, ∃ p, db.products.find? (fun q => q.id = it.productId) = some p
        ∧ it.quantity ≤ p.stock) →
      buildOrderItems db total acc items
        = .ok (total + (items.map (fun it => priceOf db it.productId * it.quantity)).sum,
            acc ++ items.map (fun it =>
              (⟨it.productId, it.quantity, priceOf db it.productId⟩ : OrderItem))) := by
  intro items
  induction items with
  | nil => intro total acc _; simp [buildOrderItems]
  | cons it rest ih =>
      intro total acc h
      obtain ⟨p, hp, hstock⟩ := h it (List.mem_cons_self it rest)
      have hpid : p.id = it.productId := by simpa using List.find?_some hp
      have hprice : priceOf db it.productId = p.price := by
        unfold priceOf; rw [hp]; rfl
      rw [buildOrderItems_cons_found db total acc it rest p hp,
        if_neg (not_lt.mpr hstock)]
      rw [ih _ _ (fun j hj => h j (List.mem_cons_of_mem it hj))]
      simp only [List.map_cons, List.sum_cons, hprice, hpid, List.append_assoc,
        List.singleton_append]
      rw [add_assoc]

theorem buildOrderItems_insufficient (db : DB) :
    ∀ (pre : List ReqItem) (bad : ReqItem) (rest : List ReqItem)
      (total : Int) (acc : List OrderItem) (p : Product),
      (∀ it ∈ pre, ∃ q, db.products.find? (fun q2 => q2.id = it.productId) = some q
        ∧ it.quantity ≤ q.stock) →
      db.products.find? (fun q => q.id = bad.productId) = some p →
      p.stock < bad.quantity →
      buildOrderItems db total acc (pre ++ bad :: rest)
        = .error (errResp 400 ("Insufficient stock for " ++ p.name)) := by
  intro pre
  induction pre with
  | nil =>
      intro bad rest total acc p _ hp hlt
      rw [List.nil_append, buildOrderItems_cons_found db total acc bad rest p hp,
        if_pos hlt]
  | cons it t ih =>
      intro bad rest total acc p h hp hlt
      obtain ⟨q, hq, hstock⟩ := h it (List.mem_cons_self it t)
      rw [List.cons_append, buildOrderItems_cons_found db total acc it _ q hq,
        if_neg (not_lt.mpr hstock)]
      exact ih bad rest _ _ p (fun j hj => h j (List.mem_cons_of_mem it hj)) hp hlt

theorem foldl_appendNotifications (mk : Nat → Notification) :
    ∀ (l : List Nat) (db : DB),
      l.foldl (fun d ow => { d with notifications := d.notifications ++ [mk ow] }) db
        = { db with notifications := db.notifications ++ l.map mk } := by
  intro l
  induction l with
  | nil => intro db; simp
  | cons a t ih =>
      intro db
      rw [List.foldl_cons, ih]
      simp

theorem filter_eq_single_of_nodup :
    ∀ (items : List ReqItem) (it : ReqItem),
      (items.map ReqItem.productId).Nodup → it ∈ items →
      items.filter (fun j => j.productId = it.productId) = [it] := by
  intro items
  induction items with
  | nil => intro it _ hmem; cases hmem
  | cons a t ih =>
      intro it hnd hmem
      rw [List.map_cons] at hnd
      obtain ⟨hhead, htail⟩ := List.nodup_cons.mp hnd
      rcases List.mem_cons.mp hmem with rfl | hit
      · rw [List.filter_cons_of_pos (by simp)]
        congr 1
        apply List.filter_eq_nil_iff.mpr
        intro j hj
        simp only [decide_eq_true_eq]
        intro hje
        apply hhead
        rw [← hje]
        exact List.mem_map_of_mem ReqItem.productId hj
      · have hne : ¬ a.productId = it.productId := by
          intro he
          apply hhead
          rw [he]
          exact List.mem_map_of_mem ReqItem.productId hit
        rw [List.filter_cons_of_neg (by simpa using hne)]
        exact ih it htail hit

theorem foldl_orderCreatedNotifications (ord : Order) (l : List Nat) (db : DB) :
    l.foldl (fun d ow =>
        { d with notifications := d.notifications ++ [orderCreatedNotification ow ord] }) db
      = { db with notifications :=
            db.notifications ++ l.map (fun ow => orderCreatedNotification ow ord) } :=
  foldl_appendNotifications (fun ow => orderCreatedNotification ow ord) l db

theorem createOrderHandler_ok_shape (nf : Bool) (uid : Nat) (items : List ReqItem)
    (addr city zip : String) (db : DB) (total : Int) (oItems : List OrderItem)
    (hbuild : buildOrderItems db 0 [] items = .ok (total, oItems))
    (hex2 : ∀ it ∈ items, (db.products.find? (fun p => p.id = it.productId)).isSome) :
    createOrderHandler nf uid items addr city zip db
      = (okResp 201, createOrderSuccessDB nf uid items addr city zip db total oItems) := by
  unfold createOrderHandler createOrderSuccessDB createdOrder
  rw [hbuild]
  dsimp only
  rw [decrementStocks_ok items]
  rotate_left
  · intro it hit
    exact hex2 it hit
  dsimp only
  cases nf
  · rw [if_neg (by simp), if_neg (by simp), foldl_orderCreatedNotifications]
  · rw [if_pos rfl, if_pos rfl, List.append_nil]

theorem createOrderSuccessDB_orders (nf : Bool) (uid : Nat) (items : List ReqItem)
    (addr city zip : String) (db : DB) (total : Int) (oItems : List OrderItem) :
    (createOrderSuccessDB nf uid items addr city zip db total oItems).orders
      = db.orders ++ [createdOrder uid addr city zip db total oItems] := by
  unfold createOrderSuccessDB
  dsimp only
  rw [foldl_applyDecrement_orders]

theorem createOrderSuccessDB_notifications_live (uid : Nat) (items : List ReqItem)
    (addr city zip : String) (db : DB) (total : Int) (oItems : List OrderItem) :
    (createOrderSuccessDB false uid items addr city zip db total oItems).notifications
      = db.notifications ++
          (dedupKeepFirst (ownersOfItems db oItems)).map
            (fun ow => orderCreatedNotification ow
              (createdOrder uid addr city zip db total oItems)) := by
  unfold createOrderSuccessDB
  dsimp only
  rw [if_neg (by simp), foldl_applyDecrement_notifications]
  rfl

theorem createOrderSuccessDB_notifications_fail (uid : Nat) (items : List ReqItem)
    (addr city zip : String) (db : DB) (total : Int) (oItems : List OrderItem) :
    (createOrderSuccessDB true uid items addr city zip db total oItems).notifications
      = db.notifications := by
  unfold createOrderSuccessDB
  dsimp only
  rw [if_pos rfl, List.append_nil, foldl_applyDecrement_notifications]

theorem createOrderSuccessDB_stockOf (nf : Bool) (uid : Nat) (items : List ReqItem)
    (addr city zip : String) (db : DB) (total : Int) (oItems : List OrderItem) (x : Nat)
    (hx : (db.products.find? (fun p => p.id = x)).isSome) :
    stockOf (createOrderSuccessDB nf uid items addr city zip db total oItems) x
      = stockOf db x
        - ((items.filter (fun it => it.productId = x)).map ReqItem.quantity).sum := by
  rw [show stockOf (createOrderSuccessDB nf uid items addr city zip db total oItems) x
      = stockOf (items.foldl applyDecrement
          { db with orders := db.orders ++ [createdOrder uid addr city zip db total oItems],
                    nextOrderId := db.nextOrderId + 1 }) x from rfl]
  rw [stockOf_foldl_applyDecrement items]
  rotate_left
  · exact hx
  rfl

/-- C1: for every order-creation request whose line items all reference
existing products with sufficient stock (with pairwise-distinct product
ids so that "the requested quantity" of a product is well defined), the
created order's total is the sum over line items of the stored price at
order time multiplied by the requested quantity, each referenced
product's stock is decremented by exactly the requested quantity, and
exactly one order-created notification is created per distinct shop
owner across all items. -/
theorem C1_order_creation_total_stock_owner_notifications
    (uid : Nat) (items : List ReqItem) (addr city zip : String) (db : DB)
    (hsuf : ∀ it ∈ items, sufficientStock db it = true)
    (hnd : (items.map ReqItem.productId).Nodup) :
    (createOrderHandler false uid items addr city zip db).1 = okResp 201
    ∧ ∃ ord : Order,
        (createOrderHandler false uid items addr city zip db).2.orders
            = db.orders ++ [ord]
        ∧ ord.total = (items.map (fun it => priceOf db it.productId * it.quantity)).sum
        ∧ ord.items = items.map (fun it =>
            (⟨it.productId, it.quantity, priceOf db it.productId⟩ : OrderItem))
        ∧ (∀ it ∈ items,
            stockOf (createOrderHandler false uid items addr city zip db).2 it.productId
              = stockOf db it.productId - it.quantity)
        ∧ ∃ owners : List Nat,
            (createOrderHandler false uid items addr city zip db).2.notifications
              = db.notifications ++ owners.map (fun ow => orderCreatedNotification ow ord)
            ∧ owners.Nodup
            ∧ (∀ x : Nat, x ∈ owners ↔ x ∈ ownersOfItems db ord.items) := by
  have hex : ∀ it ∈ items, ∃ p, db.products.find? (fun q => q.id = it.productId) = some p
      ∧ it.quantity ≤ p.stock :=
    fun it hit => (sufficientStock_iff db it).mp (hsuf it hit)
  have hex2 : ∀ it ∈ items, (db.products.find? (fun p => p.id = it.productId)).isSome := by
    intro it hit
    obtain ⟨p, hp, h2⟩ := hex it hit
    rw [hp]
    rfl
  have hbuild := buildOrderItems_ok db items 0 [] hex
  rw [zero_add, List.nil_append] at hbuild
  rw [createOrderHandler_ok_shape false uid items addr city zip db _ _ hbuild hex2]
  refine ⟨rfl, createdOrder uid addr city zip db _ _,
    createOrderSuccessDB_orders false uid items addr city zip db _ _, rfl, rfl, ?_, ?_⟩
  · intro it hit
    rw [createOrderSuccessDB_stockOf false uid items addr city zip db _ _ it.productId
      (hex2 it hit)]
    rw [filter_eq_single_of_nodup items it hnd hit]
    simp
  · refine ⟨_, createOrderSuccessDB_notifications_live uid items addr city zip db _ _,
      dedupKeepFirst_nodup _, ?_⟩
    intro x
    exact mem_dedupKeepFirst _ x

/-- Witness for C1 at a concrete store and request: two line items on
distinct products of the same shop owner. -/
theorem C1_witness :
    (∀ it ∈ [(⟨1, 2⟩ : ReqItem), ⟨2, 1⟩], sufficientStock dbC1W it = true)
    ∧ ((([(⟨1, 2⟩ : ReqItem), ⟨2, 1⟩]).map ReqItem.productId).Nodup)
    ∧ ((createOrderHandler false 1 [⟨1, 2⟩, ⟨2, 1⟩] "a" "b" "c" dbC1W).1 = okResp 201
      ∧ ∃ ord : Order,
          (createOrderHandler false 1 [⟨1, 2⟩, ⟨2, 1⟩] "a" "b" "c" dbC1W).2.orders
              = dbC1W.orders ++ [ord]
          ∧ ord.total = (([(⟨1, 2⟩ : ReqItem), ⟨2, 1⟩]).map
              (fun it => priceOf dbC1W it.productId * it.quantity)).sum
          ∧ ord.items = ([(⟨1, 2⟩ : ReqItem), ⟨2, 1⟩]).map (fun it =>
              (⟨it.productId, it.quantity, priceOf dbC1W it.productId⟩ : OrderItem))
          ∧ (∀ it ∈ [(⟨1, 2⟩ : ReqItem), ⟨2, 1⟩],
              stockOf (createOrderHandler false 1 [⟨1, 2⟩, ⟨2, 1⟩] "a" "b" "c" dbC1W).2
                  it.productId
                = stockOf dbC1W it.productId - it.quantity)
          ∧ ∃ owners : List Nat,
              (createOrderHandler false 1 [⟨1, 2⟩, ⟨2, 1⟩] "a" "b" "c" dbC1W).2.notifications
                = dbC1W.notifications
                    ++ owners.map (fun ow => orderCreatedNotification ow ord)
              ∧ owners.Nodup
              ∧ (∀ x : Nat, x ∈ owners ↔ x ∈ ownersOfItems dbC1W ord.items)) :=
  ⟨by decide, by decide,
    C1_order_creation_total_stock_owner_notifications 1 [⟨1, 2⟩, ⟨2, 1⟩] "a" "b" "c" dbC1W
      (by decide) (by decide)⟩

/-- C2: when some line item's quantity exceeds that product's stock, the
request fails with status 400 and the store is completely unchanged, even
if earlier items in the request were individually satisfiable. -/
theorem C2_insufficient_stock_no_mutation
    (nf : Bool) (uid : Nat) (pre rest : List ReqItem) (bad : ReqItem)
    (addr city zip : String) (db : DB) (p : Product)
    (hpre : ∀ it ∈ pre, sufficientStock db it = true)
    (hp : db.products.find? (fun q => q.id = bad.productId) = some p)
    (hlt : p.stock < bad.quantity) :
    createOrderHandler nf uid (pre ++ bad :: rest) addr city zip db
      = (errResp 400 ("Insufficient stock for " ++ p.name), db)
    ∧ (errResp 400 ("Insufficient stock for " ++ p.name)).status = 400 := by
  have hex : ∀ it ∈ pre, ∃ q, db.products.find? (fun q2 => q2.id = it.productId) = some q
      ∧ it.quantity ≤ q.stock :=
    fun it hit => (sufficientStock_iff db it).mp (hpre it hit)
  refine ⟨?_, rfl⟩
  unfold createOrderHandler
  rw [buildOrderItems_insufficient db pre bad rest 0 [] p hex hp hlt]

/-- Witness for C2: the first item is satisfiable, the second requests 9
units of a product with stock 4; the store is untouched. -/
theorem C2_witness :
    (∀ it ∈ [(⟨1, 2⟩ : ReqItem)], sufficientStock dbC1W it = true)
    ∧ dbC1W.products.find? (fun q => q.id = (⟨2, 9⟩ : ReqItem).productId)
        = some ⟨2, 5, 5, 4, "prodB", "approved"⟩
    ∧ ((⟨2, 5, 5, 4, "prodB", "approved"⟩ : Product).stock < (⟨2, 9⟩ : ReqItem).quantity)
    ∧ (createOrderHandler false 1 ([⟨1, 2⟩] ++ (⟨2, 9⟩ : ReqItem) :: []) "a" "b" "c" dbC1W
        = (errResp 400 ("Insufficient stock for "
            ++ (⟨2, 5, 5, 4, "prodB", "approved"⟩ : Product).name), dbC1W)
      ∧ (errResp 400 ("Insufficient stock for "
          ++ (⟨2, 5, 5, 4, "prodB", "approved"⟩ : Product).name)).status = 400) :=
  ⟨by decide, by decide, by decide,
    C2_insufficient_stock_no_mutation false 1 [⟨1, 2⟩] [] ⟨2, 9⟩ "a" "b" "c" dbC1W
      ⟨2, 5, 5, 4, "prodB", "approved"⟩ (by decide) (by decide) (by decide)⟩

/-- C10: the stock check is per line item against the stored stock, so a
request repeating the same product id (3 units each against stock 5)
passes the check and the decrements drive the stored stock to -1. -/
theorem C10_duplicate_line_items_negative_stock :
    (∀ it ∈ [(⟨1, 3⟩ : ReqItem), ⟨1, 3⟩], sufficientStock dbC1W it = true)
    ∧ (createOrderHandler false 1 [⟨1, 3⟩, ⟨1, 3⟩] "a" "b" "c" dbC1W).1.status = 201
    ∧ stockOf dbC1W 1 = 5
    ∧ stockOf (createOrderHandler false 1 [⟨1, 3⟩, ⟨1, 3⟩] "a" "b" "c" dbC1W).2 1 = -1
    ∧ stockOf (createOrderHandler false 1 [⟨1, 3⟩, ⟨1, 3⟩] "a" "b" "c" dbC1W).2 1 < 0 := by
  decide

theorem toggleWishlist_not_mem (w : List Nat) (p : Nat) (hp : p ∉ w) :
    toggleWishlist (toggleWishlist w p) p = w := by
  unfold toggleWishlist
  rw [if_neg hp, if_pos (by simp), List.filter_append]
  have h1 : w.filter (fun i => i ≠ p) = w := by
    apply List.filter_eq_self.mpr
    intro a ha
    simp only [ne_eq, decide_not, Bool.not_eq_true', decide_eq_false_iff_not]
    intro he
    exact hp (he ▸ ha)
  rw [h1]
  simp

/-- C8 counterexample: toggling product 1 twice on the stored wishlist
[1, 2] yields [2, 1], not the original ordered collection [1, 2]. -/
theorem C8_counterexample_toggle_not_involutive :
    toggleWishlist (toggleWishlist [1, 2] 1) 1 = [2, 1]
    ∧ toggleWishlist (toggleWishlist [1, 2] 1) 1 ≠ [1, 2] := by
  decide

/-- C8 amended: toggling the same product id twice restores the wishlist
membership exactly (the result contains an id iff the original did), and
restores the list itself exactly when the id was absent; when the id was
present it is moved to the end. -/
theorem C8_amended_double_toggle_membership :
    (∀ (w : List Nat) (p x : Nat),
        x ∈ toggleWishlist (toggleWishlist w p) p ↔ x ∈ w)
    ∧ (∀ (w : List Nat) (p : Nat), p ∉ w →
        toggleWishlist (toggleWishlist w p) p = w) := by
  constructor
  · intro w p x
    by_cases hp : p ∈ w
    · unfold toggleWishlist
      rw [if_pos hp, if_neg (by simp)]
      simp only [List.mem_append, List.mem_filter, List.mem_singleton,
        ne_eq, decide_not, Bool.not_eq_true', decide_eq_false_iff_not]
      constructor
      · rintro (⟨hx, _⟩ | rfl)
        · exact hx
        · exact hp
      · intro hx
        by_cases hxp : x = p
        · exact Or.inr hxp
        · exact Or.inl ⟨hx, hxp⟩
    · rw [toggleWishlist_not_mem w p hp]
  · exact toggleWishlist_not_mem

/-- Witness for C8 amended: membership restored on [1, 2] after toggling
5 twice, and the absent id 3 restores the list exactly. -/
theorem C8_amended_witness :
    ((3 : Nat) ∉ [1, 2])
    ∧ ((5 : Nat) ∈ toggleWishlist (toggleWishlist [1, 2] 5) 5 ↔ (5 : Nat) ∈ [1, 2])
    ∧ toggleWishlist (toggleWishlist [1, 2] 3) 3 = [1, 2] :=
  ⟨by decide, C8_amended_double_toggle_membership.1 [1, 2] 5 5,
    C8_amended_double_toggle_membership.2 [1, 2] 3 (by decide)⟩

theorem authenticate_401 (verify : Verifier) (req : Request)
    (hv : ∀ t, extractToken req = some t → verify t = none) :
    ∃ r, authenticate verify req = .error r ∧ r.status = 401 := by
  unfold authenticate
  cases he : extractToken req with
  | none => exact ⟨authRequiredResp, rfl, rfl⟩
  | some t =>
      by_cases h0 : t = ""
      · refine ⟨authRequiredResp, ?_, rfl⟩
        dsimp only
        rw [if_pos h0]
      · refine ⟨invalidTokenResp, ?_, rfl⟩
        dsimp only
        rw [if_neg h0, hv t he]

theorem authenticateUser_401 (verify : Verifier) (db : DB) (req : Request)
    (hv : ∀ t, extractToken req = some t → verify t = none) :
    ∃ r, authenticateUser verify db req = .error r ∧ r.status = 401 := by
  unfold authenticateUser
  cases he : extractToken req with
  | none => exact ⟨authRequiredResp, rfl, rfl⟩
  | some t =>
      by_cases h0 : t = ""
      · refine ⟨authRequiredResp, ?_, rfl⟩
        dsimp only
        rw [if_pos h0]
      · refine ⟨invalidTokenResp, ?_, rfl⟩
        dsimp only
        rw [if_neg h0, hv t he]

theorem authenticateOwner_401 (verify : Verifier) (db : DB) (req : Request)
    (hv : ∀ t, extractToken req = some t → verify t = none) :
    ∃ r, authenticateOwner verify db req = .error r ∧ r.status = 401 := by
  unfold authenticateOwner
  cases he : extractToken req with
  | none => exact ⟨authRequiredResp, rfl, rfl⟩
  | some t =>
      by_cases h0 : t = ""
      · refine ⟨authRequiredResp, ?_, rfl⟩
        dsimp only
        rw [if_pos h0]
      · refine ⟨invalidTokenResp, ?_, rfl⟩
        dsimp only
        rw [if_neg h0, hv t he]

theorem authenticateAdmin_401 (verify : Verifier) (db : DB) (req : Request)
    (hv : ∀ t, extractToken req = some t → verify t = none) :
    ∃ r, authenticateAdmin verify db req = .error r ∧ r.status = 401 := by
  unfold authenticateAdmin
  cases he : extractToken req with
  | none => exact ⟨authRequiredResp, rfl, rfl⟩
  | some t =>
      by_cases h0 : t = ""
      · refine ⟨authRequiredResp, ?_, rfl⟩
        dsimp only
        rw [if_pos h0]
      · refine ⟨invalidTokenResp, ?_, rfl⟩
        dsimp only
        rw [if_neg h0, hv t he]

/-- C5: a request with no extractable bearer credential or one whose
verification fails gets a 401 from every authentication middleware, the
wrapped handler never runs, and the store is returned unchanged. -/
theorem C5_unauthenticated_401_no_mutation
    (verify : Verifier) (db : DB) (req : Request)
    (hv : ∀ t, extractToken req = some t → verify t = none) :
    (∀ handler : Decoded → DB → Response × DB,
        (runProtected (authenticate verify req) handler db).1.status = 401
        ∧ (runProtected (authenticate verify req) handler db).2 = db)
    ∧ (∀ handler : User → DB → Response × DB,
        (runProtected (authenticateUser verify db req) handler db).1.status = 401
        ∧ (runProtected (authenticateUser verify db req) handler db).2 = db)
    ∧ (∀ handler : Owner → DB → Response × DB,
        (runProtected (authenticateOwner verify db req) handler db).1.status = 401
        ∧ (runProtected (authenticateOwner verify db req) handler db).2 = db)
    ∧ (∀ handler : Admin → DB → Response × DB,
        (runProtected (authenticateAdmin verify db req) handler db).1.status = 401
        ∧ (runProtected (authenticateAdmin verify db req) handler db).2 = db) := by
  obtain ⟨r1, h1, s1⟩ := authenticate_401 verify req hv
  obtain ⟨r2, h2, s2⟩ := authenticateUser_401 verify db req hv
  obtain ⟨r3, h3, s3⟩ := authenticateOwner_401 verify db req hv
  obtain ⟨r4, h4, s4⟩ := authenticateAdmin_401 verify db req hv
  refine ⟨fun handler => ?_, fun handler => ?_, fun handler => ?_, fun handler => ?_⟩
  · rw [h1]; exact ⟨s1, rfl⟩
  · rw [h2]; exact ⟨s2, rfl⟩
  · rw [h3]; exact ⟨s3, rfl⟩
  · rw [h4]; exact ⟨s4, rfl⟩

/-- Witness for C5: a request bearing the cookie token "zzz", which the
all-rejecting verifier refuses; every middleware answers 401 and leaves
the concrete store unchanged. -/
theorem C5_witness :
    extractToken ⟨some "zzz", none⟩ = some "zzz"
    ∧ verifyNone "zzz" = none
    ∧ ((runProtected (authenticateUser verifyNone dbC1W ⟨some "zzz", none⟩)
          (fun _ d => (okResp 200, d)) dbC1W).1.status = 401
        ∧ (runProtected (authenticateUser verifyNone dbC1W ⟨some "zzz", none⟩)
            (fun _ d => (okResp 200, d)) dbC1W).2 = dbC1W)
    ∧ ((runProtected (authenticateOwner verifyNone dbC1W ⟨some "zzz", none⟩)
          (fun _ d => (okResp 200, d)) dbC1W).1.status = 401
        ∧ (runProtected (authenticateOwner verifyNone dbC1W ⟨some "zzz", none⟩)
            (fun _ d => (okResp 200, d)) dbC1W).2 = dbC1W) :=
  ⟨by decide, rfl,
    (C5_unauthenticated_401_no_mutation verifyNone dbC1W ⟨some "zzz", none⟩
      (fun t _ => rfl)).2.1 (fun _ d => (okResp 200, d)),
    (C5_unauthenticated_401_no_mutation verifyNone dbC1W ⟨some "zzz", none⟩
      (fun t _ => rfl)).2.2.1 (fun _ d => (okResp 200, d))⟩

/-- C4: a syntactically valid owner credential whose loaded owner record
has approved = false is rejected by the shared owner middleware with 403
and machine-readable code PENDING_APPROVAL, before any handler runs, for
every owner-only endpoint (all of which mount this middleware). -/
theorem C4_pending_owner_403_pending_approval
    (verify : Verifier) (db : DB) (req : Request) (t : String) (d : Decoded) (o : Owner)
    (ht : extractToken req = some t) (hne : t ≠ "")
    (hv : verify t = some d) (hrole : d.role = "owner")
    (hfind : db.owners.find? (fun w => w.id = d.id) = some o)
    (happ : o.approved = false) :
    (∀ handler : Owner → DB → Response × DB,
        runProtected (authenticateOwner verify db req) handler db
          = (pendingApprovalResp, db))
    ∧ pendingApprovalResp.status = 403
    ∧ pendingApprovalResp.code = some "PENDING_APPROVAL" := by
  have hmw : authenticateOwner verify db req = .error pendingApprovalResp := by
    unfold authenticateOwner
    rw [ht]
    dsimp only
    rw [if_neg hne, hv]
    dsimp only
    rw [if_neg (by simp [hrole]), hfind]
    dsimp only
    rw [if_pos happ]
  refine ⟨?_, rfl, rfl⟩
  intro handler
  rw [hmw]
  rfl

/-- Witness for C4: the concrete owner token resolves to owner 7, whose
record in the pending store has approved = false. -/
theorem C4_witness :
    extractToken ⟨some "tokOwner", none⟩ = some "tokOwner"
    ∧ verifyW "tokOwner" = some ⟨7, "o@x", "owner"⟩
    ∧ dbPendingW.owners.find?
        (fun w => w.id = (⟨7, "o@x", "owner"⟩ : Decoded).id) = some ⟨7, "o@x", false⟩
    ∧ runProtected (authenticateOwner verifyW dbPendingW ⟨some "tokOwner", none⟩)
        (fun _ d => (okResp 200, d)) dbPendingW = (pendingApprovalResp, dbPendingW)
    ∧ pendingApprovalResp.status = 403
    ∧ pendingApprovalResp.code = some "PENDING_APPROVAL" :=
  ⟨by decide, by decide, by decide,
    (C4_pending_owner_403_pending_approval verifyW dbPendingW ⟨some "tokOwner", none⟩
      "tokOwner" ⟨7, "o@x", "owner"⟩ ⟨7, "o@x", false⟩ (by decide) (by decide)
      (by decide) rfl (by decide) rfl).1 (fun _ d => (okResp 200, d)),
    rfl, rfl⟩

theorem foldl_orderCompletedNotifications (ord : Order) (receipt : String)
    (l : List Nat) (db : DB) :
    l.foldl (fun d ow => { d with notifications :=
        d.notifications ++ [orderCompletedNotification ow ord receipt] }) db
      = { db with notifications := db.notifications
            ++ l.map (fun ow => orderCompletedNotification ow ord receipt) } :=
  foldl_appendNotifications (fun ow => orderCompletedNotification ow ord receipt) l db

theorem confirmOrderHandler_not_delivered (nf : Bool) (uid oid : Nat)
    (ds rp : String) (db : DB) (ord : Order)
    (hfind : db.orders.find? (fun o => o.id = oid) = some ord)
    (hown : ord.userId = uid) (hst : ord.status ≠ "delivered") :
    confirmOrderHandler nf uid oid ds rp db
      = (errResp 400 "Can only confirm delivered orders", db) := by
  unfold confirmOrderHandler
  rw [hfind]
  dsimp only
  rw [if_neg (by simp [hown]), if_pos hst]

theorem confirmOrderHandler_already (nf : Bool) (uid oid : Nat)
    (ds rp : String) (db : DB) (ord : Order) (r : String)
    (hfind : db.orders.find? (fun o => o.id = oid) = some ord)
    (hown : ord.userId = uid) (hst : ord.status = "delivered")
    (hrcp : ord.receiptNumber = some r) :
    confirmOrderHandler nf uid oid ds rp db
      = (⟨400, some "Order has already been confirmed", none, some r⟩, db) := by
  unfold confirmOrderHandler
  rw [hfind]
  dsimp only
  rw [if_neg (by simp [hown]), if_neg (by simp [hst]), hrcp]

theorem confirmOrderHandler_success (uid oid : Nat) (ds rp : String)
    (db : DB) (ord : Order)
    (hfind : db.orders.find? (fun o => o.id = oid) = some ord)
    (hown : ord.userId = uid) (hst : ord.status = "delivered")
    (hrcp : ord.receiptNumber = none) :
    confirmOrderHandler false uid oid ds rp db
      = (⟨200, none, none, some ("RCP-" ++ ds ++ "-" ++ rp)⟩,
         { db with
            orders := db.orders.map (fun o => if o.id = oid then
              { o with receiptNumber := some ("RCP-" ++ ds ++ "-" ++ rp),
                       status := "completed" } else o),
            notifications := db.notifications
              ++ (dedupKeepFirst (ownersOfItems db ord.items)).map
                  (fun ow => orderCompletedNotification ow ord
                    ("RCP-" ++ ds ++ "-" ++ rp)) }) := by
  unfold confirmOrderHandler
  rw [hfind]
  dsimp only
  rw [if_neg (by simp [hown]), if_neg (by simp [hst]), hrcp]
  dsimp only
  rw [if_neg (by simp), foldl_orderCompletedNotifications]

theorem confirmOrderHandler_notifFail (uid oid : Nat) (ds rp : String)
    (db : DB) (ord : Order)
    (hfind : db.orders.find? (fun o => o.id = oid) = some ord)
    (hown : ord.userId = uid) (hst : ord.status = "delivered")
    (hrcp : ord.receiptNumber = none)
    (hne : dedupKeepFirst (ownersOfItems db ord.items) ≠ []) :
    confirmOrderHandler true uid oid ds rp db
      = (serverErrorResp,
         { db with orders := db.orders.map (fun o => if o.id = oid then
             { o with receiptNumber := some ("RCP-" ++ ds ++ "-" ++ rp),
                      status := "completed" } else o) }) := by
  unfold confirmOrderHandler
  rw [hfind]
  dsimp only
  rw [if_neg (by simp [hown]), if_neg (by simp [hst]), hrcp]
  dsimp only
  rw [if_pos rfl, if_neg hne]

/-- C3: confirm is allowed only from status delivered (InvalidState 400
otherwise); an already-present receipt yields the AlreadyConfirmed 400
carrying that same receipt; success stores the receipt
RCP-<date>-<random> together with status completed.  Amended for the
double-confirm scenario: because success sets the status to completed,
the second confirm fails with the InvalidState error, not
AlreadyConfirmed. -/
theorem C3_confirm_delivered_receipt_double_confirm
    (nf : Bool) (uid oid : Nat) (ds rp : String) (db : DB) (ord : Order) (r : String)
    (hfind : db.orders.find? (fun o => o.id = oid) = some ord)
    (hown : ord.userId = uid) :
    (ord.status ≠ "delivered" →
      confirmOrderHandler nf uid oid ds rp db
        = (errResp 400 "Can only confirm delivered orders", db))
    ∧ (ord.status = "delivered" → ord.receiptNumber = some r →
      confirmOrderHandler nf uid oid ds rp db
        = (⟨400, some "Order has already been confirmed", none, some r⟩, db))
    ∧ (ord.status = "delivered" → ord.receiptNumber = none →
      (confirmOrderHandler false uid oid ds rp db).1
          = ⟨200, none, none, some ("RCP-" ++ ds ++ "-" ++ rp)⟩
      ∧ (∀ o2 ∈ (confirmOrderHandler false uid oid ds rp db).2.orders,
            o2.id = oid → o2.status = "completed"
              ∧ o2.receiptNumber = some ("RCP-" ++ ds ++ "-" ++ rp))
      ∧ (∀ ds2 rp2 : String,
          confirmOrderHandler nf uid oid ds2 rp2
              (confirmOrderHandler false uid oid ds rp db).2
            = (errResp 400 "Can only confirm delivered orders",
               (confirmOrderHandler false uid oid ds rp db).2))) := by
  have hoid : ord.id = oid := by simpa using List.find?_some hfind
  refine ⟨fun hst => confirmOrderHandler_not_delivered nf uid oid ds rp db ord hfind hown hst,
    fun hst hr => confirmOrderHandler_already nf uid oid ds rp db ord r hfind hown hst hr,
    fun hst hr => ?_⟩
  have hsucc := confirmOrderHandler_success uid oid ds rp db ord hfind hown hst hr
  rw [hsucc]
  refine ⟨rfl, ?_, ?_⟩
  · intro o2 ho2 hid
    dsimp only at ho2
    obtain ⟨o0, ho0, rfl⟩ := List.mem_map.mp ho2
    by_cases h : o0.id = oid
    · constructor <;> simp [h]
    · rw [if_neg h] at hid
      exact absurd hid h
  · intro ds2 rp2
    have hf : ∀ o : Order,
        (decide ((if o.id = oid then
          { o with receiptNumber := some ("RCP-" ++ ds ++ "-" ++ rp),
                   status := "completed" } else o).id = oid))
          = decide (o.id = oid) := by
      intro o
      by_cases h : o.id = oid <;> simp [h]
    have hfind2 : (db.orders.map (fun o => if o.id = oid then
        { o with receiptNumber := some ("RCP-" ++ ds ++ "-" ++ rp),
                 status := "completed" } else o)).find? (fun o => o.id = oid)
          = some { ord with receiptNumber := some ("RCP-" ++ ds ++ "-" ++ rp),
                            status := "completed" } := by
      rw [find?_map_id_preserving _ _ hf, hfind]
      simp [hoid]
    exact confirmOrderHandler_not_delivered nf uid oid ds2 rp2 _ _ hfind2 hown
      (by show ("completed" : String) ≠ "delivered"; decide)

/-- C3 counterexample: the first confirm of the delivered order succeeds
with receipt RCP-20261011-ABCD1234, but the second confirm answers the
InvalidState error, not AlreadyConfirmed, and returns no receipt. -/
theorem C3_counterexample_second_confirm_invalid_state :
    (confirmOrderHandler false 1 1 "20261011" "ABCD1234" dbC3W).1.status = 200
    ∧ (confirmOrderHandler false 1 1 "20261011" "ABCD1234" dbC3W).1.receiptNumber
        = some "RCP-20261011-ABCD1234"
    ∧ (confirmOrderHandler false 1 1 "20261012" "ZZZZ9999"
        (confirmOrderHandler false 1 1 "20261011" "ABCD1234" dbC3W).2).1
        = errResp 400 "Can only confirm delivered orders"
    ∧ (confirmOrderHandler false 1 1 "20261012" "ZZZZ9999"
        (confirmOrderHandler false 1 1 "20261011" "ABCD1234" dbC3W).2).1.error
        ≠ some "Order has already been confirmed"
    ∧ (confirmOrderHandler false 1 1 "20261012" "ZZZZ9999"
        (confirmOrderHandler false 1 1 "20261011" "ABCD1234" dbC3W).2).1.receiptNumber
        = none := by
  decide

/-- Witness for C3 on the concrete delivered order: the hypotheses hold
and the first confirm succeeds with the generated receipt. -/
theorem C3_witness :
    dbC3W.orders.find? (fun o => o.id = 1) = some ordC3W
    ∧ ordC3W.userId = 1
    ∧ (confirmOrderHandler false 1 1 "20261011" "ABCD1234" dbC3W).1
        = ⟨200, none, none, some ("RCP-" ++ "20261011" ++ "-" ++ "ABCD1234")⟩ :=
  ⟨by decide, rfl,
    ((C3_confirm_delivered_receipt_double_confirm false 1 1 "20261011" "ABCD1234"
        dbC3W ordC3W "X" (by decide) rfl).2.2 rfl rfl).1⟩

theorem authenticateOwner_ok (verify : Verifier) (db : DB) (req : Request)
    (t : String) (d : Decoded) (o : Owner)
    (ht : extractToken req = some t) (hne : t ≠ "")
    (hv : verify t = some d) (hrole : d.role = "owner")
    (hfind : db.owners.find? (fun w => w.id = d.id) = some o)
    (happ : o.approved = true) :
    authenticateOwner verify db req = .ok o := by
  unfold authenticateOwner
  rw [ht]
  dsimp only
  rw [if_neg hne, hv]
  dsimp only
  rw [if_neg (by simp [hrole]), hfind]
  dsimp only
  rw [if_neg (by simp [happ])]

theorem updateOrderStatus_ok_shape (nf : Bool) (uid oid : Nat) (s : String)
    (db : DB) (ord : Order)
    (hfind : db.orders.find? (fun o => o.id = oid) = some ord)
    (howns : ownsSomeItem db uid ord.items = .ok true) :
    updateOrderStatus nf uid oid s db
      = (okResp 200,
         let db1 : DB := { db with orders := db.orders.map (fun o =>
             if o.id = oid then { o with status := s } else o) }
         if nf then db1
         else { db1 with notifications :=
             db1.notifications ++ [statusChangedNotification ord.userId s] }) := by
  unfold updateOrderStatus
  rw [hfind]
  dsimp only
  rw [howns]

theorem updateOrderStatus_denied (nf : Bool) (uid oid : Nat) (s : String)
    (db : DB) (ord : Order)
    (hfind : db.orders.find? (fun o => o.id = oid) = some ord)
    (howns : ownsSomeItem db uid ord.items = .ok false) :
    updateOrderStatus nf uid oid s db = (errResp 403 "Access denied", db) := by
  unfold updateOrderStatus
  rw [hfind]
  dsimp only
  rw [howns]

/-- C6: through the full status-update route, an authenticated approved
owner who owns the shop of at least one of the order's items may set any
whitelisted status regardless of the prior status, and a successful
update appends a status-changed notification addressed to the order's
user; an owner owning none of the items is denied with 403 and the store
is unchanged; and when the owner middleware rejects the request, the
handler does not run and the store is unchanged. -/
theorem C6_status_update_owner_only_any_transition
    (verify : Verifier) (db : DB) (req : Request) (t : String) (d : Decoded) (o : Owner)
    (oid : Nat) (s : String) (ord : Order)
    (ht : extractToken req = some t) (hne : t ≠ "")
    (hv : verify t = some d) (hrole : d.role = "owner")
    (hfindo : db.owners.find? (fun w => w.id = d.id) = some o)
    (happ : o.approved = true)
    (hord : db.orders.find? (fun o2 => o2.id = oid) = some ord) :
    (s ∈ orderStatusWhitelist → ownsSomeItem db o.id ord.items = .ok true →
      updateOrderStatusRoute verify req false oid s db
        = (okResp 200,
           { db with
              orders := db.orders.map (fun o2 =>
                if o2.id = oid then { o2 with status := s } else o2),
              notifications := db.notifications
                ++ [statusChangedNotification ord.userId s] }))
    ∧ (s ∈ orderStatusWhitelist → ownsSomeItem db o.id ord.items = .ok false →
      updateOrderStatusRoute verify req false oid s db
        = (errResp 403 "Access denied", db))
    ∧ (∀ (verify2 : Verifier) (req2 : Request) (r : Response),
        authenticateOwner verify2 db req2 = .error r →
        updateOrderStatusRoute verify2 req2 false oid s db = (r, db)) := by
  have hmw := authenticateOwner_ok verify db req t d o ht hne hv hrole hfindo happ
  refine ⟨fun hmem howns => ?_, fun hmem howns => ?_, fun verify2 req2 r hr => ?_⟩
  · unfold updateOrderStatusRoute
    rw [hmw]
    dsimp only [runProtected]
    unfold updateOrderStatusValidated
    rw [if_pos hmem, updateOrderStatus_ok_shape false o.id oid s db ord hord howns]
    dsimp only
    rw [if_neg (by simp)]
  · unfold updateOrderStatusRoute
    rw [hmw]
    dsimp only [runProtected]
    unfold updateOrderStatusValidated
    rw [if_pos hmem]
    exact updateOrderStatus_denied false o.id oid s db ord hord howns
  · unfold updateOrderStatusRoute
    rw [hr]
    rfl

/-- Witness for C6: owner 7 moves the delivered order 1 back to status
pending (a backwards transition) through the full route and gets 200. -/
theorem C6_witness :
    extractToken ⟨some "tokOwner", none⟩ = some "tokOwner"
    ∧ verifyW "tokOwner" = some ⟨7, "o@x", "owner"⟩
    ∧ dbC3W.owners.find? (fun w => w.id = (7 : Nat)) = some ⟨7, "o@x", true⟩
    ∧ ("pending" ∈ orderStatusWhitelist)
    ∧ ownsSomeItem dbC3W 7 ordC3W.items = .ok true
    ∧ ordC3W.status = "delivered"
    ∧ (updateOrderStatusRoute verifyW ⟨some "tokOwner", none⟩ false 1 "pending" dbC3W).1
        = okResp 200 :=
  ⟨by decide, rfl, by decide, by decide, rfl, rfl, by
    rw [(C6_status_update_owner_only_any_transition verifyW dbC3W
        ⟨some "tokOwner", none⟩ "tokOwner" ⟨7, "o@x", "owner"⟩ ⟨7, "o@x", true⟩
        1 "pending" ordC3W (by decide) (by decide) rfl rfl (by decide) rfl
        (by decide)).1 (by decide) rfl]⟩

/-- C7 amended: a failing notification write is swallowed only on the
paths that go through the notification-service helpers — order creation
and status change still answer success with the mutation kept and no
notification row; but the confirm and product-approval handlers write
notifications directly inside the try block, so there a failing write
surfaces as a 500 error response, while the already-performed mutation is
still not rolled back. -/
theorem C7_notification_failure_swallowed_or_500 :
    (∀ (uid : Nat) (items : List ReqItem) (addr city zip : String) (db : DB),
        (∀ it ∈ items, sufficientStock db it = true) →
        (createOrderHandler true uid items addr city zip db).1 = okResp 201
        ∧ (createOrderHandler true uid items addr city zip db).2.notifications
            = db.notifications
        ∧ ∃ ord : Order, (createOrderHandler true uid items addr city zip db).2.orders
            = db.orders ++ [ord])
    ∧ (∀ (uid oid : Nat) (s : String) (db : DB) (ord : Order),
        db.orders.find? (fun o => o.id = oid) = some ord →
        ownsSomeItem db uid ord.items = .ok true →
        (updateOrderStatus true uid oid s db).1 = okResp 200
        ∧ (updateOrderStatus true uid oid s db).2.notifications = db.notifications
        ∧ (updateOrderStatus true uid oid s db).2.orders
            = db.orders.map (fun o => if o.id = oid then { o with status := s } else o))
    ∧ (∀ (uid oid : Nat) (ds rp : String) (db : DB) (ord : Order),
        db.orders.find? (fun o => o.id = oid) = some ord →
        ord.userId = uid → ord.status = "delivered" → ord.receiptNumber = none →
        dedupKeepFirst (ownersOfItems db ord.items) ≠ [] →
        (confirmOrderHandler true uid oid ds rp db).1 = serverErrorResp
        ∧ serverErrorResp.status = 500
        ∧ (confirmOrderHandler true uid oid ds rp db).2.notifications = db.notifications
        ∧ (confirmOrderHandler true uid oid ds rp db).2.orders
            = db.orders.map (fun o => if o.id = oid then
                { o with receiptNumber := some ("RCP-" ++ ds ++ "-" ++ rp),
                         status := "completed" } else o))
    ∧ (∀ (pid : Nat) (db : DB) (p : Product) (sh : Shop),
        db.products.find? (fun q => q.id = pid) = some p →
        db.shops.find? (fun s2 => s2.id = p.shopId) = some sh →
        (approveProductHandler true pid db).1 = serverErrorResp
        ∧ (approveProductHandler true pid db).2.notifications = db.notifications
        ∧ (approveProductHandler true pid db).2.products
            = db.products.map (fun q => if q.id = pid then
                { q with status := "approved" } else q)) := by
  refine ⟨?_, ?_, ?_, ?_⟩
  · intro uid items addr city zip db hsuf
    have hex : ∀ it ∈ items, ∃ p, db.products.find? (fun q => q.id = it.productId) = some p
        ∧ it.quantity ≤ p.stock :=
      fun it hit => (sufficientStock_iff db it).mp (hsuf it hit)
    have hex2 : ∀ it ∈ items, (db.products.find? (fun p => p.id = it.productId)).isSome := by
      intro it hit
      obtain ⟨p, hp, h2⟩ := hex it hit
      rw [hp]
      rfl
    have hbuild := buildOrderItems_ok db items 0 [] hex
    rw [zero_add, List.nil_append] at hbuild
    rw [createOrderHandler_ok_shape true uid items addr city zip db _ _ hbuild hex2]
    exact ⟨rfl, createOrderSuccessDB_notifications_fail uid items addr city zip db _ _,
      ⟨_, createOrderSuccessDB_orders true uid items addr city zip db _ _⟩⟩
  · intro uid oid s db ord hfind howns
    rw [updateOrderStatus_ok_shape true uid oid s db ord hfind howns]
    exact ⟨rfl, rfl, rfl⟩
  · intro uid oid ds rp db ord hfind hown hst hrcp hne
    rw [confirmOrderHandler_notifFail uid oid ds rp db ord hfind hown hst hrcp hne]
    exact ⟨rfl, rfl, rfl, rfl⟩
  · intro pid db p sh hp hsh
    have hshape : approveProductHandler true pid db
        = (serverErrorResp,
           { db with products := db.products.map (fun q => if q.id = pid then
               { q with status := "approved" } else q) }) := by
      unfold approveProductHandler
      rw [hp]
      dsimp only
      rw [hsh]
      rfl
    rw [hshape]
    exact ⟨rfl, rfl, rfl⟩

/-- C7 counterexample: with a failing notification write, confirming the
delivered order answers 500 — not success — although the order mutation
(status completed, receipt stored) has already been applied and is not
rolled back. -/
theorem C7_counterexample_confirm_returns_500 :
    (confirmOrderHandler true 1 1 "20261011" "ABCD1234" dbC3W).1.status = 500
    ∧ (confirmOrderHandler true 1 1 "20261011" "ABCD1234" dbC3W).1.status ≠ 200
    ∧ (confirmOrderHandler true 1 1 "20261011" "ABCD1234" dbC3W).2.orders
        = [{ ordC3W with receiptNumber := some "RCP-20261011-ABCD1234",
                         status := "completed" }]
    ∧ (confirmOrderHandler true 1 1 "20261011" "ABCD1234" dbC3W).2.orders
        ≠ dbC3W.orders := by
  decide

/-- Witness for C7 at concrete stores: order creation and status change
swallow the failing write and answer success; confirm answers 500. -/
theorem C7_witness :
    (∀ it ∈ [(⟨1, 2⟩ : ReqItem)], sufficientStock dbC1W it = true)
    ∧ ownsSomeItem dbC3W 7 ordC3W.items = .ok true
    ∧ dedupKeepFirst (ownersOfItems dbC3W ordC3W.items) ≠ []
    ∧ ((createOrderHandler true 1 [⟨1, 2⟩] "a" "b" "c" dbC1W).1 = okResp 201
      ∧ (createOrderHandler true 1 [⟨1, 2⟩] "a" "b" "c" dbC1W).2.notifications
          = dbC1W.notifications)
    ∧ ((updateOrderStatus true 7 1 "shipped" dbC3W).1 = okResp 200
      ∧ (updateOrderStatus true 7 1 "shipped" dbC3W).2.notifications
          = dbC3W.notifications)
    ∧ (confirmOrderHandler true 1 1 "20261011" "ABCD1234" dbC3W).1 = serverErrorResp
    ∧ (approveProductHandler true 1 dbC1W).1 = serverErrorResp :=
  ⟨by decide, rfl, by decide,
    ⟨(C7_notification_failure_swallowed_or_500.1 1 [⟨1, 2⟩] "a" "b" "c" dbC1W
        (by decide)).1,
      (C7_notification_failure_swallowed_or_500.1 1 [⟨1, 2⟩] "a" "b" "c" dbC1W
        (by decide)).2.1⟩,
    ⟨(C7_notification_failure_swallowed_or_500.2.1 7 1 "shipped" dbC3W ordC3W
        (by decide) rfl).1,
      (C7_notification_failure_swallowed_or_500.2.1 7 1 "shipped" dbC3W ordC3W
        (by decide) rfl).2.1⟩,
    (C7_notification_failure_swallowed_or_500.2.2.1 1 1 "20261011" "ABCD1234" dbC3W
      ordC3W (by decide) rfl rfl rfl (by decide)).1,
    (C7_notification_failure_swallowed_or_500.2.2.2 1 dbC1W
      ⟨1, 5, 10, 5, "prodA", "approved"⟩ ⟨5, 7⟩ (by decide) (by decide)).1⟩

theorem decrementStocks_snd_orders : ∀ (l : List ReqItem) (db : DB),
    ((decrementStocks db l).2).orders = db.orders := by
  intro l
  induction l with
  | nil => intro db; rfl
  | cons it rest ih =>
      intro db
      unfold decrementStocks
      cases h : db.products.find? (fun p => p.id = it.productId) with
      | none => rfl
      | some p => simpa using ih (applyDecrement db it)

theorem createOrderHandler_orders_cases (nf : Bool) (uid : Nat) (items : List ReqItem)
    (addr city zip : String) (db : DB) :
    (createOrderHandler nf uid items addr city zip db).2.orders = db.orders
    ∨ ∃ total oItems,
        (createOrderHandler nf uid items addr city zip db).2.orders
          = db.orders ++ [createdOrder uid addr city zip db total oItems] := by
  unfold createOrderHandler
  split
  · left; rfl
  · rename_i total oItems hbuild
    right
    refine ⟨total, oItems, ?_⟩
    dsimp only
    split
    · rename_i r db2 heq
      have h2 := congrArg (fun q : Option Response × DB => (q.2).orders) heq
      dsimp only at h2
      rw [← h2, decrementStocks_snd_orders]
      rfl
    · rename_i db2 heq
      have h2 := congrArg (fun q : Option Response × DB => (q.2).orders) heq
      dsimp only at h2
      cases nf
      · rw [if_neg (by simp), foldl_orderCreatedNotifications]
        dsimp only
        rw [← h2, decrementStocks_snd_orders]
        rfl
      · rw [if_pos rfl, ← h2, decrementStocks_snd_orders]
        rfl

theorem cancelOrderHandler_orders_cases (uid oid : Nat) (db : DB) :
    (cancelOrderHandler uid oid db).2.orders = db.orders
    ∨ (cancelOrderHandler uid oid db).2.orders
        = db.orders.map (fun o => if o.id = oid then { o with status := "cancelled" } else o) := by
  unfold cancelOrderHandler
  split
  · left; rfl
  · split
    · left; rfl
    · split
      · left; rfl
      · right; rfl

theorem updateOrderStatusValidated_orders_cases (nf : Bool) (uid oid : Nat)
    (s : String) (db : DB) :
    (updateOrderStatusValidated nf uid oid s db).2.orders = db.orders
    ∨ (s ∈ orderStatusWhitelist
        ∧ (updateOrderStatusValidated nf uid oid s db).2.orders
            = db.orders.map (fun o => if o.id = oid then { o with status := s } else o)) := by
  unfold updateOrderStatusValidated
  split
  · rename_i hmem
    unfold updateOrderStatus
    split
    · left; rfl
    · split
      · left; rfl
      · left; rfl
      · right
        refine ⟨hmem, ?_⟩
        dsimp only
        cases nf
        · rw [if_neg (by simp)]
        · rw [if_pos rfl]
  · left; rfl

theorem confirmOrderHandler_orders_cases (nf : Bool) (uid oid : Nat)
    (ds rp : String) (db : DB) :
    (confirmOrderHandler nf uid oid ds rp db).2.orders = db.orders
    ∨ ∃ receipt : String,
        (confirmOrderHandler nf uid oid ds rp db).2.orders
          = db.orders.map (fun o => if o.id = oid then
              { o with receiptNumber := some receipt, status := "completed" } else o) := by
  unfold confirmOrderHandler
  split
  · left; rfl
  · split
    · left; rfl
    · split
      · left; rfl
      · split
        · left; rfl
        · right
          refine ⟨"RCP-" ++ ds ++ "-" ++ rp, ?_⟩
          dsimp only
          split
          · split
            · rfl
            · rfl
          · rw [foldl_orderCompletedNotifications]

theorem mem_whitelist_ne_completed : ∀ s ∈ orderStatusWhitelist, s ≠ "completed" := by
  intro s hs
  simp only [orderStatusWhitelist, List.mem_cons, List.not_mem_nil, or_false] at hs
  rcases hs with rfl | rfl | rfl | rfl | rfl <;> decide

/-- C9: in every store reachable through the order endpoints, an order
with status completed carries a receipt identifier: the status-update
whitelist excludes completed, and the only operation that sets completed
(user confirmation) stores the receipt in the same update. -/
theorem C9_completed_orders_have_receipts (db : DB) (h : ReachableDB db) :
    completedHasReceipt db := by
  induction h with
  | base db h0 =>
      intro o ho hc
      rw [h0] at ho
      cases ho
  | step db db' hreach hstep ih =>
      cases hstep with
      | create nf uid items addr city zip =>
          rcases createOrderHandler_orders_cases nf uid items addr city zip db
            with ho | ⟨total, oItems, ho⟩
          · intro o hmem hc
            rw [ho] at hmem
            exact ih o hmem hc
          · intro o hmem hc
            rw [ho] at hmem
            rcases List.mem_append.mp hmem with hmem2 | hmem2
            · exact ih o hmem2 hc
            · rw [List.mem_singleton] at hmem2
              subst hmem2
              exact absurd hc (by show ¬("pending" : String) = "completed"; decide)
      | cancel uid oid =>
          rcases cancelOrderHandler_orders_cases uid oid db with ho | ho
          · intro o hmem hc
            rw [ho] at hmem
            exact ih o hmem hc
          · intro o hmem hc
            rw [ho] at hmem
            obtain ⟨o0, ho0, rfl⟩ := List.mem_map.mp hmem
            by_cases hid : o0.id = oid
            · rw [if_pos hid] at hc
              exact absurd hc (by show ¬("cancelled" : String) = "completed"; decide)
            · rw [if_neg hid] at hc ⊢
              exact ih o0 ho0 hc
      | status nf uid oid s =>
          rcases updateOrderStatusValidated_orders_cases nf uid oid s db
            with ho | ⟨hmem0, ho⟩
          · intro o hmem hc
            rw [ho] at hmem
            exact ih o hmem hc
          · intro o hmem hc
            rw [ho] at hmem
            obtain ⟨o0, ho0, rfl⟩ := List.mem_map.mp hmem
            by_cases hid : o0.id = oid
            · rw [if_pos hid] at hc
              exact absurd hc (mem_whitelist_ne_completed s hmem0)
            · rw [if_neg hid] at hc ⊢
              exact ih o0 ho0 hc
      | confirm nf uid oid ds rp =>
          rcases confirmOrderHandler_orders_cases nf uid oid ds rp db
            with ho | ⟨receipt, ho⟩
          · intro o hmem hc
            rw [ho] at hmem
            exact ih o hmem hc
          · intro o hmem hc
            rw [ho] at hmem
            obtain ⟨o0, ho0, rfl⟩ := List.mem_map.mp hmem
            by_cases hid : o0.id = oid
            · rw [if_pos hid]
              rfl
            · rw [if_neg hid] at hc ⊢
              exact ih o0 ho0 hc

/-- Witness for C9: the store reached from the empty-order concrete store
by one order-creation request is reachable, and every completed order in
it carries a receipt. -/
theorem C9_witness :
    ReachableDB (createOrderHandler false 1 [⟨1, 2⟩] "a" "b" "c" dbC1W).2
    ∧ completedHasReceipt (createOrderHandler false 1 [⟨1, 2⟩] "a" "b" "c" dbC1W).2 :=
  have hr : ReachableDB (createOrderHandler false 1 [⟨1, 2⟩] "a" "b" "c" dbC1W).2 :=
    ReachableDB.step dbC1W _ (ReachableDB.base dbC1W rfl)
      (OrderStep.create false 1 [⟨1, 2⟩] "a" "b" "c" dbC1W)
  ⟨hr, C9_completed_orders_have_receipts _ hr⟩

end Junkhub
